import Mathlib

/-!
Verification of the user-authentication service
(`src/0x03-user_authentication_service/auth.py` and `db.py`).

The persistence engine (SQLAlchemy) is abstracted to the keyed record
store it implements: a `DBState` holds the list of `User` rows plus the
autoincrement counter. Randomness (`bcrypt.gensalt()` in
`_hash_password`, `uuid4()` in `_generate_uuid`) is passed in as an
explicit argument of the operation that consumes it, so operations stay
pure functions of their inputs. Python exceptions become the explicit
error type `Err`:
  NoResultFound       -> Err.noResultFound   (spec: NotFound)
  InvalidRequestError -> Err.invalidRequest  (spec: InvalidQuery;
                         MultipleResultsFound is re-raised by
                         DB.find_user_by as InvalidRequestError)
  ValueError          -> Err.valueError      (spec: AlreadyExists,
                         NoSuchUser, InvalidToken, InvalidField)
-/

namespace AuthService

/-- Modelled from the spec: bcrypt is an external library, not part of
src/. Per the glossary, the one-way hash primitive produces a
verifiable-but-irreversible representation of a password with a paired
verify operation, salted per call (`bcrypt.gensalt()`). We model the
hash output as an opaque value determined by the salt and the password;
irreversibility is outside the model, the verify round-trip is exact. -/
structure Hash where
  salt : Nat
  pw : String
deriving DecidableEq

/-- bcrypt.hashpw: hash `password` under the given salt. -/
def hashpw (password : String) (salt : Nat) : Hash :=
  { salt := salt, pw := password }

/-- bcrypt.checkpw: verify `password` against a stored hash. -/
def checkpw (password : String) (h : Hash) : Bool :=
  password == h.pw

/-- Modelled from the spec: user.py (the SQLAlchemy `User` model) is
imported by auth.py and db.py but absent from src/. Spec section 3
fixes its fields: `id` (assigned at creation), `email`,
`hashedPassword`, nullable `sessionToken`, nullable `resetToken`,
with the Python column names used by auth.py and db.py. -/
structure User where
  id : Nat
  email : String
  hashed_password : Hash
  session_id : Option String
  reset_token : Option String
deriving DecidableEq

/-- A value that can appear in a keyword argument to `find_user_by` or
`update_user` (Python is dynamically typed; these are the types the
service actually passes). -/
inductive Value where
  | vNat (n : Nat)
  | vStr (s : String)
  | vHash (h : Hash)
  | vNone
deriving DecidableEq

/-- A nullable string column as a queryable value (`None` is SQL NULL). -/
def optStrVal : Option String → Value
  | some s => Value.vStr s
  | none => Value.vNone

/-- The attribute names of the `User` model: exactly the names for which
Python `hasattr(user, key)` holds and which `filter_by` recognizes. -/
def validAttrs : List String :=
  ["id", "email", "hashed_password", "session_id", "reset_token"]

/-- Read an attribute of a user row by name (reflection, as `filter_by`
and `getattr` do). -/
def getAttr (u : User) (k : String) : Option Value :=
  match k with
  | "id" => some (Value.vNat u.id)
  | "email" => some (Value.vStr u.email)
  | "hashed_password" => some (Value.vHash u.hashed_password)
  | "session_id" => some (optStrVal u.session_id)
  | "reset_token" => some (optStrVal u.reset_token)
  | _ => none

/-- Write an attribute of a user row by name (`setattr`). A value whose
type does not fit the column is out of the model (SQLAlchemy defers type
errors to the database); the service only ever writes fitting values. -/
def setAttr (u : User) (k : String) (v : Value) : User :=
  match k, v with
  | "id", Value.vNat n => { u with id := n }
  | "email", Value.vStr s => { u with email := s }
  | "hashed_password", Value.vHash h => { u with hashed_password := h }
  | "session_id", Value.vStr s => { u with session_id := some s }
  | "session_id", Value.vNone => { u with session_id := none }
  | "reset_token", Value.vStr s => { u with reset_token := some s }
  | "reset_token", Value.vNone => { u with reset_token := none }
  | _, _ => u

/-- The record store behind class DB: the user table plus the
autoincrement primary-key counter. -/
structure DBState where
  users : List User
  nextId : Nat
deriving DecidableEq

/-- The exceptions the service raises, see the module comment. -/
inductive Err where
  | noResultFound
  | invalidRequest
  | valueError
deriving DecidableEq

/-- A row matches a keyword-argument list iff every pair agrees with the
row's attribute (the WHERE clause built by `filter_by(**kwargs)`). -/
def matchesCriteria (criteria : List (String × Value)) (u : User) : Bool :=
  criteria.all fun kv => decide (getAttr u kv.1 = some kv.2)

/-- DB.find_user_by: `session.query(User).filter_by(**kwargs).one()`.
`filter_by` raises InvalidRequestError on an unrecognized attribute
name; `.one()` raises NoResultFound on zero rows and
MultipleResultsFound (re-raised by the except clause as
InvalidRequestError) on two or more. Empty kwargs build an unfiltered
query. -/
def find_user_by (db : DBState) (criteria : List (String × Value)) :
    Except Err User :=
  if criteria.all (fun kv => validAttrs.contains kv.1) then
    match db.users.filter (matchesCriteria criteria) with
    | [] => Except.error Err.noResultFound
    | [u] => Except.ok u
    | _ :: _ :: _ => Except.error Err.invalidRequest
  else Except.error Err.invalidRequest

/-- DB.add_user: insert a row with the given email and hashed password;
`session_id` and `reset_token` start as NULL, the primary key is the
next autoincrement value. Returns the new row. -/
def add_user (db : DBState) (email : String) (hashed_password : Hash) :
    User × DBState :=
  let new_user : User :=
    { id := db.nextId, email := email, hashed_password := hashed_password,
      session_id := none, reset_token := none }
  (new_user, { users := db.users ++ [new_user], nextId := db.nextId + 1 })

/-- The `for key, value in kwargs.items()` loop of DB.update_user:
each key must pass `hasattr(user, key)` or ValueError is raised
(aborting the transaction, so no partial write survives); otherwise the
value is written with `setattr`. -/
def applyKwargs (u : User) (kwargs : List (String × Value)) :
    Except Err User :=
  match kwargs with
  | [] => Except.ok u
  | (k, v) :: rest =>
    if validAttrs.contains k then applyKwargs (setAttr u k v) rest
    else Except.error Err.valueError

/-- Commit of the mutated row: the row found under `user_id` is replaced
by its updated version. -/
def writeBack (users : List User) (uid : Nat) (w : User) : List User :=
  users.map fun u => if u.id == uid then w else u

/-- DB.update_user: find the row by primary key (NoResultFound if
absent), validate and apply each keyword argument (ValueError on an
attribute the model does not have), then commit. -/
def update_user (db : DBState) (user_id : Nat)
    (kwargs : List (String × Value)) : Except Err DBState :=
  match find_user_by db [("id", Value.vNat user_id)] with
  | Except.error e => Except.error e
  | Except.ok user =>
    match applyKwargs user kwargs with
    | Except.error e => Except.error e
    | Except.ok u2 =>
      Except.ok { db with users := writeBack db.users user_id u2 }

/-- An `except NoResultFound:` handler that returns a default value. -/
def catchNoResult {α : Type} (x : Except Err α) (dflt : α) : Except Err α :=
  match x with
  | Except.error Err.noResultFound => Except.ok dflt
  | r => r

/-- An `except NoResultFound: raise ValueError` handler. -/
def noResultToValueError {α : Type} (x : Except Err α) : Except Err α :=
  match x with
  | Except.error Err.noResultFound => Except.error Err.valueError
  | r => r

/-- Auth.register_user: look the email up; if found raise ValueError
("User already exists"), on NoResultFound hash the password (the salt
drawn by `bcrypt.gensalt()` is the explicit `salt` argument) and insert. -/
def register_user (db : DBState) (email password : String) (salt : Nat) :
    Except Err (User × DBState) :=
  match find_user_by db [("email", Value.vStr email)] with
  | Except.ok _ => Except.error Err.valueError
  | Except.error Err.noResultFound =>
    Except.ok (add_user db email (hashpw password salt))
  | Except.error e => Except.error e

/-- Auth.valid_login: look the email up and check the password with
`bcrypt.checkpw`; NoResultFound yields False. -/
def valid_login (db : DBState) (email password : String) :
    Except Err Bool :=
  catchNoResult
    (match find_user_by db [("email", Value.vStr email)] with
     | Except.error e => Except.error e
     | Except.ok user => Except.ok (checkpw password user.hashed_password))
    false

/-- Auth.create_session: look the email up, store a fresh uuid (the
explicit `session_id` argument, drawn by `_generate_uuid`) as the row's
`session_id` and return it; NoResultFound anywhere yields None with the
store untouched. -/
def create_session (db : DBState) (email : String) (session_id : String) :
    Except Err (Option String × DBState) :=
  catchNoResult
    (match find_user_by db [("email", Value.vStr email)] with
     | Except.error e => Except.error e
     | Except.ok user =>
       match update_user db user.id [("session_id", Value.vStr session_id)] with
       | Except.error e => Except.error e
       | Except.ok db2 => Except.ok (some session_id, db2))
    (none, db)

/-- Auth.get_user_from_session_id: None short-circuits to None without a
store call; any other value is looked up under `session_id`, with
NoResultFound yielding None. -/
def get_user_from_session_id (db : DBState) (session_id : Option String) :
    Except Err (Option User) :=
  match session_id with
  | none => Except.ok none
  | some sid =>
    catchNoResult
      (match find_user_by db [("session_id", Value.vStr sid)] with
       | Except.error e => Except.error e
       | Except.ok user => Except.ok (some user))
      none

/-- The number of store lookups (`find_user_by` calls) that
Auth.get_user_from_session_id performs for a given argument, read off
its control flow: zero on the None short-circuit, one otherwise. -/
def get_user_from_session_id_store_lookups (session_id : Option String) :
    Nat :=
  match session_id with
  | none => 0
  | some _ => 1

/-- Auth.destroy_session: set the row's `session_id` to NULL. -/
def destroy_session (db : DBState) (user_id : Nat) : Except Err DBState :=
  update_user db user_id [("session_id", Value.vNone)]

/-- Auth.get_reset_password_token: look the email up, store a fresh uuid
(the explicit `token` argument) as `reset_token` and return it;
NoResultFound is re-raised as ValueError. -/
def get_reset_password_token (db : DBState) (email token : String) :
    Except Err (String × DBState) :=
  noResultToValueError
    (match find_user_by db [("email", Value.vStr email)] with
     | Except.error e => Except.error e
     | Except.ok user =>
       match update_user db user.id [("reset_token", Value.vStr token)] with
       | Except.error e => Except.error e
       | Except.ok db2 => Except.ok (token, db2))

/-- Auth.update_password: look the reset token up, hash the new password
(fresh salt as explicit argument), store the new hash and clear
`reset_token` to NULL; NoResultFound is re-raised as ValueError. -/
def update_password (db : DBState) (reset_token password : String)
    (salt : Nat) : Except Err DBState :=
  noResultToValueError
    (match find_user_by db [("reset_token", Value.vStr reset_token)] with
     | Except.error e => Except.error e
     | Except.ok user =>
       update_user db user.id
         [("hashed_password", Value.vHash (hashpw password salt)),
          ("reset_token", Value.vNone)])

/-! General lemmas about the store. -/

/-- If `u` is in `l`, matches `p`, every match shares its key with `u`,
and keys are duplicate-free, then `u` is the unique query result. -/
theorem filter_eq_singleton_of_key {κ : Type} (key : User → κ)
    {l : List User} {u : User} {p : User → Bool}
    (hmem : u ∈ l) (hnodup : (l.map key).Nodup) (hpu : p u = true)
    (hkey : ∀ v ∈ l, p v = true → key v = key u) :
    l.filter p = [u] := by
  induction l with
  | nil => cases hmem
  | cons a t ih =>
    rw [List.map_cons, List.nodup_cons] at hnodup
    obtain ⟨hka, hnd⟩ := hnodup
    rcases List.mem_cons.mp hmem with h | hut
    · subst h
      have ht : t.filter p = [] := by
        apply List.filter_eq_nil_iff.mpr
        intro v hv hpv
        have hk : key v = key u := hkey v (List.mem_cons_of_mem u hv) hpv
        exact hka (hk ▸ List.mem_map_of_mem key hv)
      rw [List.filter_cons, if_pos hpu, ht]
    · have hpa : p a = false := by
        cases hpab : p a with
        | false => rfl
        | true =>
          exfalso
          have hk : key a = key u := hkey a (List.mem_cons_self a t) hpab
          exact hka (hk ▸ List.mem_map_of_mem key hut)
      rw [List.filter_cons, hpa, if_neg (by simp)]
      exact ih hut hnd fun v hv hpv => hkey v (List.mem_cons_of_mem a hv) hpv

/-- A singleton filter result is a member that matches. -/
theorem mem_of_filter_singleton {l : List User} {p : User → Bool} {u : User}
    (h : l.filter p = [u]) : u ∈ l ∧ p u = true := by
  have hu : u ∈ l.filter p := by rw [h]; exact List.mem_singleton_self u
  exact ⟨List.mem_of_mem_filter hu, List.of_mem_filter hu⟩

/-- A singleton filter result is the only member that matches. -/
theorem eq_of_filter_singleton {l : List User} {p : User → Bool} {u v : User}
    (h : l.filter p = [u]) (hv : v ∈ l) (hpv : p v = true) : v = u := by
  have hmem : v ∈ l.filter p := List.mem_filter.mpr ⟨hv, hpv⟩
  rw [h] at hmem
  exact List.mem_singleton.mp hmem

/-! Unfolding the WHERE clause for each single-attribute query. -/

theorem matches_id_iff (u : User) (n : Nat) :
    matchesCriteria [("id", Value.vNat n)] u = true ↔ u.id = n := by
  have h1 : getAttr u "id" = some (Value.vNat u.id) := rfl
  simp [matchesCriteria, h1]

theorem matches_email_iff (u : User) (e : String) :
    matchesCriteria [("email", Value.vStr e)] u = true ↔ u.email = e := by
  have h1 : getAttr u "email" = some (Value.vStr u.email) := rfl
  simp [matchesCriteria, h1]

theorem matches_session_iff (u : User) (t : String) :
    matchesCriteria [("session_id", Value.vStr t)] u = true ↔
      u.session_id = some t := by
  have h1 : getAttr u "session_id" = some (optStrVal u.session_id) := rfl
  cases hs : u.session_id <;> simp [matchesCriteria, h1, hs, optStrVal]

theorem matches_reset_iff (u : User) (t : String) :
    matchesCriteria [("reset_token", Value.vStr t)] u = true ↔
      u.reset_token = some t := by
  have h1 : getAttr u "reset_token" = some (optStrVal u.reset_token) := rfl
  cases hs : u.reset_token <;> simp [matchesCriteria, h1, hs, optStrVal]

/-! Lemmas about `find_user_by`. -/

theorem find_user_by_of_filter_singleton {db : DBState}
    {C : List (String × Value)} {w : User}
    (hvalid : C.all (fun kv => validAttrs.contains kv.1) = true)
    (hfilter : db.users.filter (matchesCriteria C) = [w]) :
    find_user_by db C = Except.ok w := by
  unfold find_user_by
  rw [if_pos hvalid, hfilter]

theorem find_user_by_of_filter_nil {db : DBState}
    {C : List (String × Value)}
    (hvalid : C.all (fun kv => validAttrs.contains kv.1) = true)
    (hfilter : db.users.filter (matchesCriteria C) = []) :
    find_user_by db C = Except.error Err.noResultFound := by
  unfold find_user_by
  rw [if_pos hvalid, hfilter]

theorem filter_of_find_user_by_ok {db : DBState}
    {C : List (String × Value)} {w : User}
    (h : find_user_by db C = Except.ok w) :
    db.users.filter (matchesCriteria C) = [w] := by
  unfold find_user_by at h
  by_cases hv : C.all (fun kv => validAttrs.contains kv.1) = true
  · rw [if_pos hv] at h
    cases hf : db.users.filter (matchesCriteria C) with
    | nil => rw [hf] at h; cases h
    | cons a t =>
      cases t with
      | nil =>
        rw [hf] at h
        injection h with h2
        rw [h2]
      | cons b t2 => rw [hf] at h; cases h
  · rw [if_neg hv] at h; cases h

/-! Lemmas about `writeBack` and `update_user`. -/

theorem mem_writeBack_elim {l : List User} {uid : Nat} {w v : User}
    (hv : v ∈ writeBack l uid w) : v = w ∨ (v ∈ l ∧ v.id ≠ uid) := by
  unfold writeBack at hv
  obtain ⟨u, hu, heq⟩ := List.mem_map.mp hv
  by_cases h : (u.id == uid) = true
  · rw [if_pos h] at heq; exact Or.inl heq.symm
  · rw [if_neg h] at heq
    subst heq
    exact Or.inr ⟨hu, by simpa using h⟩

theorem mem_writeBack_self {l : List User} {w0 w : User}
    (hmem : w0 ∈ l) : w ∈ writeBack l w0.id w := by
  unfold writeBack
  exact List.mem_map.mpr ⟨w0, hmem, by simp⟩

theorem writeBack_map_id {l : List User} {uid : Nat} {w : User}
    (hwid : w.id = uid) :
    (writeBack l uid w).map User.id = l.map User.id := by
  unfold writeBack
  rw [List.map_map]
  apply List.map_congr_left
  intro u hu
  simp only [Function.comp_apply]
  by_cases h : (u.id == uid) = true
  · rw [if_pos h, hwid]
    exact (eq_of_beq h).symm
  · rw [if_neg h]

theorem writeBack_map_email {l : List User} {w0 w : User}
    (hmem : w0 ∈ l) (hnodup : (l.map User.id).Nodup)
    (hemail : w.email = w0.email) :
    (writeBack l w0.id w).map User.email = l.map User.email := by
  unfold writeBack
  rw [List.map_map]
  apply List.map_congr_left
  intro u hu
  simp only [Function.comp_apply]
  by_cases h : (u.id == w0.id) = true
  · have hu0 : u = w0 :=
      List.inj_on_of_nodup_map hnodup hu hmem (eq_of_beq h)
    rw [if_pos h, hemail, hu0]
  · rw [if_neg h]

theorem update_user_ok_of {db : DBState} {w w2 : User}
    {kwargs : List (String × Value)}
    (hmem : w ∈ db.users) (hids : (db.users.map User.id).Nodup)
    (hkw : applyKwargs w kwargs = Except.ok w2) :
    update_user db w.id kwargs =
      Except.ok { db with users := writeBack db.users w.id w2 } := by
  have hfind : find_user_by db [("id", Value.vNat w.id)] = Except.ok w := by
    apply find_user_by_of_filter_singleton (by rfl)
    exact filter_eq_singleton_of_key User.id hmem hids
      ((matches_id_iff w w.id).mpr rfl)
      (fun v hv hpv => (matches_id_iff v w.id).mp hpv)
  simp only [update_user, hfind, hkw]

/-! Lemmas about session resolution. -/

theorem resolve_session_some {db : DBState} {w : User} {t : String}
    (hmem : w ∈ db.users) (hids : (db.users.map User.id).Nodup)
    (hw : w.session_id = some t)
    (honly : ∀ v ∈ db.users, v.session_id = some t → v.id = w.id) :
    get_user_from_session_id db (some t) = Except.ok (some w) := by
  have hfind : find_user_by db [("session_id", Value.vStr t)] = Except.ok w := by
    apply find_user_by_of_filter_singleton (by rfl)
    exact filter_eq_singleton_of_key User.id hmem hids
      ((matches_session_iff w t).mpr hw)
      (fun v hv hpv => honly v hv ((matches_session_iff v t).mp hpv))
  simp only [get_user_from_session_id, hfind, catchNoResult]

theorem resolve_session_none {db : DBState} {t : String}
    (h : ∀ v ∈ db.users, v.session_id ≠ some t) :
    get_user_from_session_id db (some t) = Except.ok none := by
  have hfil : db.users.filter (matchesCriteria [("session_id", Value.vStr t)]) = [] :=
    List.filter_eq_nil_iff.mpr
      (fun v hv hpv => h v hv ((matches_session_iff v t).mp hpv))
  have hfind : find_user_by db [("session_id", Value.vStr t)] =
      Except.error Err.noResultFound :=
    find_user_by_of_filter_nil (by rfl) hfil
  simp only [get_user_from_session_id, hfind, catchNoResult]

theorem resolve_session_ok_inv {db : DBState} {t : String} {u : User}
    (h : get_user_from_session_id db (some t) = Except.ok (some u)) :
    u ∈ db.users ∧ u.session_id = some t := by
  simp only [get_user_from_session_id] at h
  cases hf : find_user_by db [("session_id", Value.vStr t)] with
  | ok v =>
    rw [hf] at h
    simp only [catchNoResult] at h
    injection h with h2
    injection h2 with h3
    have hfil := filter_of_find_user_by_ok hf
    have hv := mem_of_filter_singleton hfil
    rw [← h3]
    exact ⟨hv.1, (matches_session_iff v t).mp hv.2⟩
  | error e =>
    rw [hf] at h
    cases e <;> simp only [catchNoResult] at h <;> cases h

/-- C1: for a registered (email, password) pair, valid_login accepts the
registered password and rejects every other password: registration
stores `bcrypt.hashpw(password, gensalt())` and valid_login checks the
candidate with `bcrypt.checkpw` against the stored hash. -/
theorem register_then_valid_login (db : DBState) (email p pbad : String)
    (salt : Nat) (u : User) (db2 : DBState)
    (hfresh : ∀ v ∈ db.users, v.email ≠ email)
    (hreg : register_user db email p salt = Except.ok (u, db2))
    (hne : pbad ≠ p) :
    valid_login db2 email p = Except.ok true ∧
    valid_login db2 email pbad = Except.ok false := by
  have hfil : db.users.filter (matchesCriteria [("email", Value.vStr email)]) = [] :=
    List.filter_eq_nil_iff.mpr
      (fun v hv hpv => hfresh v hv ((matches_email_iff v email).mp hpv))
  have hfind : find_user_by db [("email", Value.vStr email)] =
      Except.error Err.noResultFound :=
    find_user_by_of_filter_nil (by rfl) hfil
  simp only [register_user, hfind, add_user] at hreg
  injection hreg with h1
  injection h1 with hu hdb2
  subst hu
  subst hdb2
  have hm : matchesCriteria [("email", Value.vStr email)]
      { id := db.nextId, email := email, hashed_password := hashpw p salt,
        session_id := none, reset_token := none } = true :=
    (matches_email_iff _ _).mpr rfl
  have hfil2 : (db.users ++
      [({ id := db.nextId, email := email, hashed_password := hashpw p salt,
          session_id := none, reset_token := none } : User)]).filter
        (matchesCriteria [("email", Value.vStr email)]) =
      [({ id := db.nextId, email := email, hashed_password := hashpw p salt,
          session_id := none, reset_token := none } : User)] := by
    rw [List.filter_append, hfil, List.filter_cons, if_pos hm]
    rfl
  have hfind2 : find_user_by
      { users := db.users ++
          [({ id := db.nextId, email := email, hashed_password := hashpw p salt,
              session_id := none, reset_token := none } : User)],
        nextId := db.nextId + 1 } [("email", Value.vStr email)] =
      Except.ok { id := db.nextId, email := email,
                  hashed_password := hashpw p salt,
                  session_id := none, reset_token := none } :=
    find_user_by_of_filter_singleton (by rfl) hfil2
  have hbad : (pbad == p) = false := beq_eq_false_iff_ne.mpr hne
  constructor
  · simp only [valid_login, hfind2, catchNoResult]
    simp [checkpw, hashpw]
  · simp only [valid_login, hfind2, catchNoResult]
    simp [checkpw, hashpw, hbad]

/-- C1 witness: concrete run on the empty store. -/
theorem register_then_valid_login_witness :
    valid_login
      { users := [{ id := 1, email := "a@x.com", hashed_password := { salt := 0, pw := "p1" },
                    session_id := none, reset_token := none }], nextId := 2 }
      "a@x.com" "p1" = Except.ok true ∧
    valid_login
      { users := [{ id := 1, email := "a@x.com", hashed_password := { salt := 0, pw := "p1" },
                    session_id := none, reset_token := none }], nextId := 2 }
      "a@x.com" "p2" = Except.ok false :=
  register_then_valid_login { users := [], nextId := 1 } "a@x.com" "p1" "p2" 0
    { id := 1, email := "a@x.com", hashed_password := { salt := 0, pw := "p1" },
      session_id := none, reset_token := none }
    { users := [{ id := 1, email := "a@x.com", hashed_password := { salt := 0, pw := "p1" },
                  session_id := none, reset_token := none }], nextId := 2 }
    (by simp) (by rfl) (by decide)

/-- C3: registering an email a second time raises ValueError ("User
already exists"): the pre-check lookup now finds the record that the
first call inserted, so the second call performs no write and the first
record keeps the id, email, hash and NULL tokens it was created with. -/
theorem register_duplicate_fails (db : DBState) (email p1 p2 : String)
    (salt1 salt2 : Nat) (u : User) (db2 : DBState)
    (hfresh : ∀ v ∈ db.users, v.email ≠ email)
    (hreg : register_user db email p1 salt1 = Except.ok (u, db2)) :
    register_user db2 email p2 salt2 = Except.error Err.valueError ∧
    db2.users = db.users ++ [u] ∧
    u = { id := db.nextId, email := email, hashed_password := hashpw p1 salt1,
          session_id := none, reset_token := none } := by
  have hfil : db.users.filter (matchesCriteria [("email", Value.vStr email)]) = [] :=
    List.filter_eq_nil_iff.mpr
      (fun v hv hpv => hfresh v hv ((matches_email_iff v email).mp hpv))
  have hfind : find_user_by db [("email", Value.vStr email)] =
      Except.error Err.noResultFound :=
    find_user_by_of_filter_nil (by rfl) hfil
  simp only [register_user, hfind, add_user] at hreg
  injection hreg with h1
  injection h1 with hu hdb2
  subst hu
  subst hdb2
  have hm : matchesCriteria [("email", Value.vStr email)]
      { id := db.nextId, email := email, hashed_password := hashpw p1 salt1,
        session_id := none, reset_token := none } = true :=
    (matches_email_iff _ _).mpr rfl
  have hfil2 : (db.users ++
      [({ id := db.nextId, email := email, hashed_password := hashpw p1 salt1,
          session_id := none, reset_token := none } : User)]).filter
        (matchesCriteria [("email", Value.vStr email)]) =
      [({ id := db.nextId, email := email, hashed_password := hashpw p1 salt1,
          session_id := none, reset_token := none } : User)] := by
    rw [List.filter_append, hfil, List.filter_cons, if_pos hm]
    rfl
  have hfind2 : find_user_by
      { users := db.users ++
          [({ id := db.nextId, email := email, hashed_password := hashpw p1 salt1,
              session_id := none, reset_token := none } : User)],
        nextId := db.nextId + 1 } [("email", Value.vStr email)] =
      Except.ok { id := db.nextId, email := email,
                  hashed_password := hashpw p1 salt1,
                  session_id := none, reset_token := none } :=
    find_user_by_of_filter_singleton (by rfl) hfil2
  exact ⟨by simp only [register_user, hfind2], rfl, rfl⟩

/-- C3 witness: concrete run on the empty store. -/
theorem register_duplicate_fails_witness :
    register_user
      { users := [{ id := 1, email := "a@x.com", hashed_password := { salt := 0, pw := "p1" },
                    session_id := none, reset_token := none }], nextId := 2 }
      "a@x.com" "p2" 7 = Except.error Err.valueError ∧
    ({ users := [{ id := 1, email := "a@x.com", hashed_password := { salt := 0, pw := "p1" },
                   session_id := none, reset_token := none }], nextId := 2 } : DBState).users =
      ({ users := [], nextId := 1 } : DBState).users ++
        [{ id := 1, email := "a@x.com", hashed_password := { salt := 0, pw := "p1" },
           session_id := none, reset_token := none }] ∧
    ({ id := 1, email := "a@x.com", hashed_password := { salt := 0, pw := "p1" },
       session_id := none, reset_token := none } : User) =
      { id := ({ users := [], nextId := 1 } : DBState).nextId, email := "a@x.com",
        hashed_password := hashpw "p1" 0, session_id := none, reset_token := none } :=
  register_duplicate_fails { users := [], nextId := 1 } "a@x.com" "p1" "p2" 0 7
    { id := 1, email := "a@x.com", hashed_password := { salt := 0, pw := "p1" },
      session_id := none, reset_token := none }
    { users := [{ id := 1, email := "a@x.com", hashed_password := { salt := 0, pw := "p1" },
                  session_id := none, reset_token := none }], nextId := 2 }
    (by simp) (by rfl)

/-- C2: create_session stores the fresh token T on the user's row and
returns it, so get_user_from_session_id resolves T to that user; after
destroy_session sets the row's `session_id` to NULL, T no longer
resolves. Hypotheses: the email identifies exactly one row, primary
keys are unique, T is fresh (no row already holds it). -/
theorem session_lifecycle (db : DBState) (email T : String) (w : User)
    (hemail : db.users.filter (matchesCriteria [("email", Value.vStr email)]) = [w])
    (hids : (db.users.map User.id).Nodup)
    (hT : ∀ v ∈ db.users, v.session_id ≠ some T) :
    ∃ db2 db3,
      create_session db email T = Except.ok (some T, db2) ∧
      get_user_from_session_id db2 (some T) =
        Except.ok (some { w with session_id := some T }) ∧
      destroy_session db2 w.id = Except.ok db3 ∧
      get_user_from_session_id db3 (some T) = Except.ok none := by
  obtain ⟨hmemw, -⟩ := mem_of_filter_singleton hemail
  have hfind : find_user_by db [("email", Value.vStr email)] = Except.ok w :=
    find_user_by_of_filter_singleton (by rfl) hemail
  have hkw1 : applyKwargs w [("session_id", Value.vStr T)] =
      Except.ok { w with session_id := some T } := rfl
  have hupd1 : update_user db w.id [("session_id", Value.vStr T)] =
      Except.ok { db with
        users := writeBack db.users w.id { w with session_id := some T } } :=
    update_user_ok_of hmemw hids hkw1
  have hcs : create_session db email T =
      Except.ok (some T, { db with
        users := writeBack db.users w.id { w with session_id := some T } }) := by
    simp only [create_session, hfind, hupd1, catchNoResult]
  have hmem2 : ({ w with session_id := some T } : User) ∈
      writeBack db.users w.id { w with session_id := some T } :=
    mem_writeBack_self hmemw
  have hids2 : ((writeBack db.users w.id
      { w with session_id := some T }).map User.id).Nodup := by
    rw [@writeBack_map_id db.users w.id { w with session_id := some T } rfl]
    exact hids
  have hres2 : get_user_from_session_id
      { db with users := writeBack db.users w.id { w with session_id := some T } }
      (some T) = Except.ok (some { w with session_id := some T }) := by
    apply resolve_session_some hmem2 hids2 rfl
    intro v hv hvs
    rcases mem_writeBack_elim hv with h | ⟨hvl, hvid⟩
    · rw [h]
    · exact absurd hvs (hT v hvl)
  have hkw2 : applyKwargs ({ w with session_id := some T } : User)
      [("session_id", Value.vNone)] =
      Except.ok { w with session_id := none } := rfl
  have hupd2 := @update_user_ok_of
    { db with users := writeBack db.users w.id { w with session_id := some T } }
    ({ w with session_id := some T } : User) ({ w with session_id := none } : User)
    [("session_id", Value.vNone)] hmem2 hids2 hkw2
  refine ⟨_, _, hcs, hres2, hupd2, ?_⟩
  apply resolve_session_none
  intro v hv
  rcases mem_writeBack_elim hv with h | ⟨hv2, hvid⟩
  · rw [h]; simp
  · rcases mem_writeBack_elim hv2 with h2 | ⟨hv3, h3⟩
    · exfalso; apply hvid; rw [h2]
    · exact hT v hv3

/-- C2 witness: concrete run on a one-user store. -/
theorem session_lifecycle_witness :
    ∃ db2 db3,
      create_session
        { users := [{ id := 1, email := "a@x.com",
                      hashed_password := { salt := 0, pw := "p1" },
                      session_id := none, reset_token := none }], nextId := 2 }
        "a@x.com" "t1" = Except.ok (some "t1", db2) ∧
      get_user_from_session_id db2 (some "t1") =
        Except.ok (some { id := 1, email := "a@x.com",
                          hashed_password := { salt := 0, pw := "p1" },
                          session_id := some "t1", reset_token := none }) ∧
      destroy_session db2 1 = Except.ok db3 ∧
      get_user_from_session_id db3 (some "t1") = Except.ok none :=
  session_lifecycle
    { users := [{ id := 1, email := "a@x.com",
                  hashed_password := { salt := 0, pw := "p1" },
                  session_id := none, reset_token := none }], nextId := 2 }
    "a@x.com" "t1"
    { id := 1, email := "a@x.com", hashed_password := { salt := 0, pw := "p1" },
      session_id := none, reset_token := none }
    (by rfl) (by simp) (by simp)

/-- C4: update_password consumes the stored reset token: the first call
finds the row by `reset_token`, stores the new hash and clears the
token to NULL, so a second call with the same token hits NoResultFound,
re-raised as ValueError ("InvalidToken"). -/
theorem reset_token_single_use (db : DBState) (R p1 p2 : String)
    (s1 s2 : Nat) (w : User)
    (hreset : db.users.filter (matchesCriteria [("reset_token", Value.vStr R)]) = [w])
    (hids : (db.users.map User.id).Nodup) :
    ∃ db2, update_password db R p1 s1 = Except.ok db2 ∧
      update_password db2 R p2 s2 = Except.error Err.valueError := by
  obtain ⟨hmemw, -⟩ := mem_of_filter_singleton hreset
  have hfind : find_user_by db [("reset_token", Value.vStr R)] = Except.ok w :=
    find_user_by_of_filter_singleton (by rfl) hreset
  have hkw : applyKwargs w
      [("hashed_password", Value.vHash (hashpw p1 s1)), ("reset_token", Value.vNone)] =
      Except.ok { w with hashed_password := hashpw p1 s1, reset_token := none } := rfl
  have hupd : update_user db w.id
      [("hashed_password", Value.vHash (hashpw p1 s1)), ("reset_token", Value.vNone)] =
      Except.ok (DBState.mk
        (writeBack db.users w.id
          ({ w with hashed_password := hashpw p1 s1, reset_token := none }))
        db.nextId) :=
    update_user_ok_of hmemw hids hkw
  have h1 : update_password db R p1 s1 =
      Except.ok (DBState.mk
        (writeBack db.users w.id
          ({ w with hashed_password := hashpw p1 s1, reset_token := none }))
        db.nextId) := by
    simp only [update_password, hfind, hupd, noResultToValueError]
  refine ⟨_, h1, ?_⟩
  have hfil2 : (writeBack db.users w.id
      { w with hashed_password := hashpw p1 s1, reset_token := none }).filter
      (matchesCriteria [("reset_token", Value.vStr R)]) = [] := by
    apply List.filter_eq_nil_iff.mpr
    intro v hv hpv
    have hvr := (matches_reset_iff v R).mp hpv
    rcases mem_writeBack_elim hv with h | ⟨hvl, hvid⟩
    · rw [h] at hvr; exact Option.noConfusion hvr
    · exact hvid (by rw [eq_of_filter_singleton hreset hvl hpv])
  have hfind2 : find_user_by (DBState.mk
      (writeBack db.users w.id
        ({ w with hashed_password := hashpw p1 s1, reset_token := none }))
      db.nextId)
      [("reset_token", Value.vStr R)] = Except.error Err.noResultFound :=
    find_user_by_of_filter_nil (by rfl) hfil2
  simp only [update_password, hfind2, noResultToValueError]

/-- C4 witness: concrete run on a one-user store holding reset token r1. -/
theorem reset_token_single_use_witness :
    ∃ db2, update_password
      { users := [{ id := 1, email := "a@x.com",
                    hashed_password := { salt := 0, pw := "p1" },
                    session_id := none, reset_token := some "r1" }], nextId := 2 }
      "r1" "p2" 5 = Except.ok db2 ∧
      update_password db2 "r1" "p3" 6 = Except.error Err.valueError :=
  reset_token_single_use
    { users := [{ id := 1, email := "a@x.com",
                  hashed_password := { salt := 0, pw := "p1" },
                  session_id := none, reset_token := some "r1" }], nextId := 2 }
    "r1" "p2" "p3" 5 6
    { id := 1, email := "a@x.com", hashed_password := { salt := 0, pw := "p1" },
      session_id := none, reset_token := some "r1" }
    (by rfl) (by simp)

/-- C5: after update_password stores the hash of the new password on the
row, valid_login (which looks the row up by email and verifies with
checkpw) accepts the new password and rejects the old one. -/
theorem update_password_changes_login (db : DBState) (R oldp newp : String)
    (salt0 salt : Nat) (w : User)
    (hreset : db.users.filter (matchesCriteria [("reset_token", Value.vStr R)]) = [w])
    (hids : (db.users.map User.id).Nodup)
    (hemails : (db.users.map User.email).Nodup)
    (hold : w.hashed_password = hashpw oldp salt0)
    (hne : newp ≠ oldp) :
    ∃ db2, update_password db R newp salt = Except.ok db2 ∧
      valid_login db2 w.email newp = Except.ok true ∧
      valid_login db2 w.email oldp = Except.ok false := by
  obtain ⟨hmemw, -⟩ := mem_of_filter_singleton hreset
  have hfind : find_user_by db [("reset_token", Value.vStr R)] = Except.ok w :=
    find_user_by_of_filter_singleton (by rfl) hreset
  have hkw : applyKwargs w
      [("hashed_password", Value.vHash (hashpw newp salt)), ("reset_token", Value.vNone)] =
      Except.ok { w with hashed_password := hashpw newp salt, reset_token := none } := rfl
  have hupd : update_user db w.id
      [("hashed_password", Value.vHash (hashpw newp salt)), ("reset_token", Value.vNone)] =
      Except.ok (DBState.mk
        (writeBack db.users w.id
          ({ w with hashed_password := hashpw newp salt, reset_token := none }))
        db.nextId) :=
    update_user_ok_of hmemw hids hkw
  have h1 : update_password db R newp salt =
      Except.ok (DBState.mk
        (writeBack db.users w.id
          ({ w with hashed_password := hashpw newp salt, reset_token := none }))
        db.nextId) := by
    simp only [update_password, hfind, hupd, noResultToValueError]
  have hmem2 : ({ w with hashed_password := hashpw newp salt, reset_token := none } : User) ∈
      writeBack db.users w.id
        { w with hashed_password := hashpw newp salt, reset_token := none } :=
    mem_writeBack_self hmemw
  have hem2 : ((writeBack db.users w.id
      { w with hashed_password := hashpw newp salt, reset_token := none }).map
        User.email).Nodup := by
    rw [@writeBack_map_email db.users w
      ({ w with hashed_password := hashpw newp salt, reset_token := none })
      hmemw hids rfl]
    exact hemails
  have hfil2 : (writeBack db.users w.id
      { w with hashed_password := hashpw newp salt, reset_token := none }).filter
      (matchesCriteria [("email", Value.vStr w.email)]) =
      [{ w with hashed_password := hashpw newp salt, reset_token := none }] := by
    apply filter_eq_singleton_of_key User.email hmem2 hem2
      ((matches_email_iff _ _).mpr rfl)
    intro v hv hpv
    exact (matches_email_iff v w.email).mp hpv
  have hfind2 : find_user_by (DBState.mk
      (writeBack db.users w.id
        ({ w with hashed_password := hashpw newp salt, reset_token := none }))
      db.nextId)
      [("email", Value.vStr w.email)] =
      Except.ok { w with hashed_password := hashpw newp salt, reset_token := none } :=
    find_user_by_of_filter_singleton (by rfl) hfil2
  have hbad : (oldp == newp) = false := beq_eq_false_iff_ne.mpr hne.symm
  refine ⟨_, h1, ?_, ?_⟩
  · simp only [valid_login, hfind2, catchNoResult]
    simp [checkpw, hashpw]
  · simp only [valid_login, hfind2, catchNoResult]
    simp [checkpw, hashpw, hbad]

/-- C5 witness: concrete run on a one-user store holding reset token r1. -/
theorem update_password_changes_login_witness :
    ∃ db2, update_password
      { users := [{ id := 1, email := "a@x.com",
                    hashed_password := { salt := 0, pw := "p1" },
                    session_id := none, reset_token := some "r1" }], nextId := 2 }
      "r1" "p2" 5 = Except.ok db2 ∧
      valid_login db2 "a@x.com" "p2" = Except.ok true ∧
      valid_login db2 "a@x.com" "p1" = Except.ok false :=
  update_password_changes_login
    { users := [{ id := 1, email := "a@x.com",
                  hashed_password := { salt := 0, pw := "p1" },
                  session_id := none, reset_token := some "r1" }], nextId := 2 }
    "r1" "p1" "p2" 0 5
    { id := 1, email := "a@x.com", hashed_password := { salt := 0, pw := "p1" },
      session_id := none, reset_token := some "r1" }
    (by rfl) (by simp) (by simp) (by rfl) (by decide)

/-- C7: create_session overwrites the row's single `session_id` column
with the fresh token, so the earlier token matches no row any more and
get_user_from_session_id returns None for it; and in any state a row is
resolvable through at most one token, because resolution matches a row
by its one stored `session_id` value. -/
theorem session_overwrite_invalidates_old (db : DBState)
    (email T1 T2 : String) (w : User)
    (hemail : db.users.filter (matchesCriteria [("email", Value.vStr email)]) = [w])
    (hids : (db.users.map User.id).Nodup)
    (hw : w.session_id = some T1)
    (honly : ∀ v ∈ db.users, v.id ≠ w.id → v.session_id ≠ some T1)
    (hne : T1 ≠ T2) :
    (∃ db2, create_session db email T2 = Except.ok (some T2, db2) ∧
      get_user_from_session_id db2 (some T1) = Except.ok none) ∧
    ∀ (d : DBState) (t t2 : String) (u : User),
      get_user_from_session_id d (some t) = Except.ok (some u) →
      get_user_from_session_id d (some t2) = Except.ok (some u) → t = t2 := by
  constructor
  · obtain ⟨hmemw, -⟩ := mem_of_filter_singleton hemail
    have hfind : find_user_by db [("email", Value.vStr email)] = Except.ok w :=
      find_user_by_of_filter_singleton (by rfl) hemail
    have hkw1 : applyKwargs w [("session_id", Value.vStr T2)] =
        Except.ok { w with session_id := some T2 } := rfl
    have hupd1 : update_user db w.id [("session_id", Value.vStr T2)] =
        Except.ok (DBState.mk
          (writeBack db.users w.id ({ w with session_id := some T2 }))
          db.nextId) :=
      update_user_ok_of hmemw hids hkw1
    have hcs : create_session db email T2 =
        Except.ok (some T2, DBState.mk
          (writeBack db.users w.id ({ w with session_id := some T2 }))
          db.nextId) := by
      simp only [create_session, hfind, hupd1, catchNoResult]
    refine ⟨_, hcs, ?_⟩
    apply resolve_session_none
    intro v hv
    rcases mem_writeBack_elim hv with h | ⟨hvl, hvid⟩
    · rw [h]
      intro hcon
      injection hcon with h2
      exact hne (h2.symm ▸ rfl)
    · exact honly v hvl hvid
  · intro d t t2 u h1 h2
    obtain ⟨-, hs1⟩ := resolve_session_ok_inv h1
    obtain ⟨-, hs2⟩ := resolve_session_ok_inv h2
    rw [hs1] at hs2
    injection hs2

/-- C7 witness: concrete run on a one-user store with active token t1. -/
theorem session_overwrite_invalidates_old_witness :
    ((∃ db2, create_session
        { users := [{ id := 1, email := "a@x.com",
                      hashed_password := { salt := 0, pw := "p1" },
                      session_id := some "t1", reset_token := none }], nextId := 2 }
        "a@x.com" "t2" = Except.ok (some "t2", db2) ∧
      get_user_from_session_id db2 (some "t1") = Except.ok none) ∧
    ∀ (d : DBState) (t t2 : String) (u : User),
      get_user_from_session_id d (some t) = Except.ok (some u) →
      get_user_from_session_id d (some t2) = Except.ok (some u) → t = t2) :=
  session_overwrite_invalidates_old
    { users := [{ id := 1, email := "a@x.com",
                  hashed_password := { salt := 0, pw := "p1" },
                  session_id := some "t1", reset_token := none }], nextId := 2 }
    "a@x.com" "t1" "t2"
    { id := 1, email := "a@x.com", hashed_password := { salt := 0, pw := "p1" },
      session_id := some "t1", reset_token := none }
    (by rfl) (by simp) (by rfl) (by simp) (by decide)

/-- C10 (frame): a successful update_password replaces only the row it
found by the reset token, and on that row only `hashed_password` and
`reset_token` change; id, email and `session_id` are untouched, every
other row is untouched, and a session token held before the reset still
resolves to this user afterwards. -/
theorem update_password_frame (db : DBState) (R p : String) (salt : Nat)
    (w : User)
    (hreset : db.users.filter (matchesCriteria [("reset_token", Value.vStr R)]) = [w])
    (hids : (db.users.map User.id).Nodup) :
    ∃ db2, update_password db R p salt = Except.ok db2 ∧
      db2.users = writeBack db.users w.id
        ({ w with hashed_password := hashpw p salt, reset_token := none }) ∧
      db2.nextId = db.nextId ∧
      ({ w with hashed_password := hashpw p salt, reset_token := none } : User).id = w.id ∧
      ({ w with hashed_password := hashpw p salt, reset_token := none } : User).email = w.email ∧
      ({ w with hashed_password := hashpw p salt, reset_token := none } : User).session_id = w.session_id ∧
      (∀ v ∈ db.users, v.id ≠ w.id → v ∈ db2.users) ∧
      ∀ T, w.session_id = some T →
        (∀ v ∈ db.users, v.id ≠ w.id → v.session_id ≠ some T) →
        get_user_from_session_id db2 (some T) =
          Except.ok (some { w with hashed_password := hashpw p salt, reset_token := none }) := by
  obtain ⟨hmemw, -⟩ := mem_of_filter_singleton hreset
  have hfind : find_user_by db [("reset_token", Value.vStr R)] = Except.ok w :=
    find_user_by_of_filter_singleton (by rfl) hreset
  have hkw : applyKwargs w
      [("hashed_password", Value.vHash (hashpw p salt)), ("reset_token", Value.vNone)] =
      Except.ok { w with hashed_password := hashpw p salt, reset_token := none } := rfl
  have hupd : update_user db w.id
      [("hashed_password", Value.vHash (hashpw p salt)), ("reset_token", Value.vNone)] =
      Except.ok (DBState.mk
        (writeBack db.users w.id
          ({ w with hashed_password := hashpw p salt, reset_token := none }))
        db.nextId) :=
    update_user_ok_of hmemw hids hkw
  have h1 : update_password db R p salt =
      Except.ok (DBState.mk
        (writeBack db.users w.id
          ({ w with hashed_password := hashpw p salt, reset_token := none }))
        db.nextId) := by
    simp only [update_password, hfind, hupd, noResultToValueError]
  refine ⟨_, h1, rfl, rfl, rfl, rfl, rfl, ?_, ?_⟩
  · intro v hv hvid
    exact List.mem_map.mpr ⟨v, hv, by rw [if_neg (by simpa using hvid)]⟩
  · intro T hT hothers
    have hmem2 : ({ w with hashed_password := hashpw p salt, reset_token := none } : User) ∈
        writeBack db.users w.id
          ({ w with hashed_password := hashpw p salt, reset_token := none }) :=
      mem_writeBack_self hmemw
    have hids2 : ((writeBack db.users w.id
        ({ w with hashed_password := hashpw p salt, reset_token := none })).map
          User.id).Nodup := by
      rw [@writeBack_map_id db.users w.id
        ({ w with hashed_password := hashpw p salt, reset_token := none }) rfl]
      exact hids
    refine @resolve_session_some
      (DBState.mk
        (writeBack db.users w.id
          ({ w with hashed_password := hashpw p salt, reset_token := none }))
        db.nextId)
      ({ w with hashed_password := hashpw p salt, reset_token := none })
      T hmem2 hids2 hT ?_
    intro v hv hvs
    rcases mem_writeBack_elim hv with h | ⟨hvl, hvid⟩
    · rw [h]
    · exact absurd hvs (hothers v hvl hvid)

/-- C10 witness: concrete run on a one-user store holding both an active
session token and a reset token. -/
theorem update_password_frame_witness :
    ∃ db2, update_password
      { users := [{ id := 1, email := "a@x.com",
                    hashed_password := { salt := 0, pw := "p1" },
                    session_id := some "t1", reset_token := some "r1" }], nextId := 2 }
      "r1" "p2" 5 = Except.ok db2 ∧
      db2.users = writeBack
        [{ id := 1, email := "a@x.com",
           hashed_password := { salt := 0, pw := "p1" },
           session_id := some "t1", reset_token := some "r1" }] 1
        ({ id := 1, email := "a@x.com",
           hashed_password := hashpw "p2" 5,
           session_id := some "t1", reset_token := none }) ∧
      db2.nextId = 2 ∧
      ({ id := 1, email := "a@x.com", hashed_password := hashpw "p2" 5,
         session_id := some "t1", reset_token := none } : User).id = 1 ∧
      ({ id := 1, email := "a@x.com", hashed_password := hashpw "p2" 5,
         session_id := some "t1", reset_token := none } : User).email = "a@x.com" ∧
      ({ id := 1, email := "a@x.com", hashed_password := hashpw "p2" 5,
         session_id := some "t1", reset_token := none } : User).session_id = some "t1" ∧
      (∀ v ∈ [({ id := 1, email := "a@x.com",
                 hashed_password := { salt := 0, pw := "p1" },
                 session_id := some "t1", reset_token := some "r1" } : User)],
         v.id ≠ 1 → v ∈ db2.users) ∧
      ∀ T, (some "t1" : Option String) = some T →
        (∀ v ∈ [({ id := 1, email := "a@x.com",
                   hashed_password := { salt := 0, pw := "p1" },
                   session_id := some "t1", reset_token := some "r1" } : User)],
           v.id ≠ 1 → v.session_id ≠ some T) →
        get_user_from_session_id db2 (some T) =
          Except.ok (some { id := 1, email := "a@x.com",
                            hashed_password := hashpw "p2" 5,
                            session_id := some "t1", reset_token := none }) :=
  update_password_frame
    { users := [{ id := 1, email := "a@x.com",
                  hashed_password := { salt := 0, pw := "p1" },
                  session_id := some "t1", reset_token := some "r1" }], nextId := 2 }
    "r1" "p2" 5
    { id := 1, email := "a@x.com", hashed_password := { salt := 0, pw := "p1" },
      session_id := some "t1", reset_token := some "r1" }
    (by rfl) (by simp)

/-! Lemmas about `applyKwargs` (the update-validation loop). -/

theorem applyKwargs_error_of_bad (u : User) (kwargs : List (String × Value))
    (h : ∃ kv ∈ kwargs, validAttrs.contains kv.1 = false) :
    applyKwargs u kwargs = Except.error Err.valueError := by
  induction kwargs generalizing u with
  | nil =>
    obtain ⟨kv, hkv, -⟩ := h
    cases hkv
  | cons a rest ih =>
    obtain ⟨k, v⟩ := a
    by_cases hk : validAttrs.contains k = true
    · have hrest : ∃ kv ∈ rest, validAttrs.contains kv.1 = false := by
        obtain ⟨kv, hkv, hbad⟩ := h
        rcases List.mem_cons.mp hkv with h2 | hmem
        · rw [h2] at hbad
          rw [hk] at hbad
          cases hbad
        · exact ⟨kv, hmem, hbad⟩
      simp only [applyKwargs, if_pos hk]
      exact ih (setAttr u k v) hrest
    · have hk2 : validAttrs.contains k = false := by
        cases hc : validAttrs.contains k
        · rfl
        · exact absurd hc hk
      simp only [applyKwargs, hk2]
      rfl

theorem applyKwargs_ok_of_valid (u : User) (kwargs : List (String × Value))
    (h : ∀ kv ∈ kwargs, validAttrs.contains kv.1 = true) :
    ∃ u2, applyKwargs u kwargs = Except.ok u2 := by
  induction kwargs generalizing u with
  | nil => exact ⟨u, rfl⟩
  | cons a rest ih =>
    obtain ⟨k, v⟩ := a
    have hk : validAttrs.contains k = true := h (k, v) (List.mem_cons_self _ _)
    obtain ⟨u2, hu2⟩ := ih (setAttr u k v)
      (fun kv hkv => h kv (List.mem_cons_of_mem _ hkv))
    refine ⟨u2, ?_⟩
    simp only [applyKwargs, if_pos hk]
    exact hu2

/-- C6 counterexample: the empty-string token is not short-circuited
(the code checks only `if session_id is None`), so the store is queried
for it — one lookup, not zero — and in a store whose row holds the
empty string as its token, get_user_from_session_id (some "") returns
that row rather than None. -/
theorem resolve_empty_token_counterexample :
    get_user_from_session_id
      { users := [{ id := 1, email := "a@x.com",
                    hashed_password := { salt := 0, pw := "p1" },
                    session_id := some "", reset_token := none }], nextId := 2 }
      (some "") =
      Except.ok (some { id := 1, email := "a@x.com",
                        hashed_password := { salt := 0, pw := "p1" },
                        session_id := some "", reset_token := none }) ∧
    get_user_from_session_id_store_lookups (some "") = 1 :=
  ⟨rfl, rfl⟩

/-- C6 amended: get_user_from_session_id on None returns None with zero
store lookups in every state; on the empty string it is not
short-circuited — it performs one store lookup — and returns None
exactly in stores where no row's session token is the empty string
(which holds in every state the service itself produces, since stored
tokens are uuid strings or NULL). -/
theorem resolve_null_and_empty (db : DBState)
    (hempty : ∀ v ∈ db.users, v.session_id ≠ some "") :
    get_user_from_session_id db none = Except.ok none ∧
    get_user_from_session_id_store_lookups none = 0 ∧
    get_user_from_session_id db (some "") = Except.ok none ∧
    get_user_from_session_id_store_lookups (some "") = 1 :=
  ⟨rfl, rfl, resolve_session_none hempty, rfl⟩

/-- C6 witness: concrete run on a one-user store with a NULL token. -/
theorem resolve_null_and_empty_witness :
    get_user_from_session_id
      { users := [{ id := 1, email := "a@x.com",
                    hashed_password := { salt := 0, pw := "p1" },
                    session_id := none, reset_token := none }], nextId := 2 }
      none = Except.ok none ∧
    get_user_from_session_id_store_lookups none = 0 ∧
    get_user_from_session_id
      { users := [{ id := 1, email := "a@x.com",
                    hashed_password := { salt := 0, pw := "p1" },
                    session_id := none, reset_token := none }], nextId := 2 }
      (some "") = Except.ok none ∧
    get_user_from_session_id_store_lookups (some "") = 1 :=
  resolve_null_and_empty
    { users := [{ id := 1, email := "a@x.com",
                  hashed_password := { salt := 0, pw := "p1" },
                  session_id := none, reset_token := none }], nextId := 2 }
    (by simp)

/-- C8 counterexample: an update naming the field `email` does not fail
with InvalidField: `hasattr(user, "email")` holds, so update_user
accepts it and rewrites the email. -/
theorem update_user_accepts_email_counterexample :
    update_user
      { users := [{ id := 1, email := "a@x.com",
                    hashed_password := { salt := 0, pw := "p1" },
                    session_id := none, reset_token := none }], nextId := 2 }
      1 [("email", Value.vStr "b@y.com")] =
      Except.ok { users := [{ id := 1, email := "b@y.com",
                              hashed_password := { salt := 0, pw := "p1" },
                              session_id := none, reset_token := none }],
                  nextId := 2 } ∧
    update_user
      { users := [{ id := 1, email := "a@x.com",
                    hashed_password := { salt := 0, pw := "p1" },
                    session_id := none, reset_token := none }], nextId := 2 }
      1 [("email", Value.vStr "b@y.com")] ≠ Except.error Err.valueError :=
  ⟨rfl, fun h => Except.noConfusion h⟩

/-- C8 amended: on an existing row, update_user raises ValueError
(InvalidField) precisely when some supplied field name is not an
attribute of the User model — the attributes being id, email,
hashed_password, session_id, reset_token — and succeeds whenever every
supplied name is one of those five; in particular the names id and
email pass the `hasattr` check and are mutated, they are not rejected. -/
theorem update_user_field_validation (db : DBState) (uid : Nat)
    (kwargs : List (String × Value)) (w : User)
    (hfind : find_user_by db [("id", Value.vNat uid)] = Except.ok w) :
    ((∃ kv ∈ kwargs, validAttrs.contains kv.1 = false) →
      update_user db uid kwargs = Except.error Err.valueError) ∧
    ((∀ kv ∈ kwargs, validAttrs.contains kv.1 = true) →
      ∃ db2, update_user db uid kwargs = Except.ok db2) := by
  constructor
  · intro hbad
    simp only [update_user, hfind, applyKwargs_error_of_bad w kwargs hbad]
  · intro hgood
    obtain ⟨u2, hu2⟩ := applyKwargs_ok_of_valid w kwargs hgood
    exact ⟨{ db with users := writeBack db.users uid u2 },
      by simp only [update_user, hfind, hu2]⟩

/-- C8 amended-claim witness: concrete run updating the email (accepted)
and a nonexistent attribute (rejected). -/
theorem update_user_field_validation_witness :
    (((∃ kv ∈ [("email", Value.vStr "b@y.com")], validAttrs.contains kv.1 = false) →
      update_user
        { users := [{ id := 1, email := "a@x.com",
                      hashed_password := { salt := 0, pw := "p1" },
                      session_id := none, reset_token := none }], nextId := 2 }
        1 [("email", Value.vStr "b@y.com")] = Except.error Err.valueError) ∧
    ((∀ kv ∈ [("email", Value.vStr "b@y.com")], validAttrs.contains kv.1 = true) →
      ∃ db2, update_user
        { users := [{ id := 1, email := "a@x.com",
                      hashed_password := { salt := 0, pw := "p1" },
                      session_id := none, reset_token := none }], nextId := 2 }
        1 [("email", Value.vStr "b@y.com")] = Except.ok db2)) :=
  update_user_field_validation
    { users := [{ id := 1, email := "a@x.com",
                  hashed_password := { salt := 0, pw := "p1" },
                  session_id := none, reset_token := none }], nextId := 2 }
    1 [("email", Value.vStr "b@y.com")]
    { id := 1, email := "a@x.com", hashed_password := { salt := 0, pw := "p1" },
      session_id := none, reset_token := none }
    (by rfl)

/-- C9 counterexample: the empty criteria set does not fail with
InvalidQuery: `filter_by()` with no kwargs builds an unfiltered query
and `.one()` on a one-row table returns the row. -/
theorem find_user_by_empty_criteria_counterexample :
    find_user_by
      { users := [{ id := 1, email := "a@x.com",
                    hashed_password := { salt := 0, pw := "p1" },
                    session_id := none, reset_token := none }], nextId := 2 } [] =
      Except.ok { id := 1, email := "a@x.com",
                  hashed_password := { salt := 0, pw := "p1" },
                  session_id := none, reset_token := none } ∧
    find_user_by
      { users := [{ id := 1, email := "a@x.com",
                    hashed_password := { salt := 0, pw := "p1" },
                    session_id := none, reset_token := none }], nextId := 2 } [] ≠
      Except.error Err.invalidRequest :=
  ⟨rfl, fun h => Except.noConfusion h⟩

/-- C9 amended: a single recognized attribute returns the unique
matching row, or NoResultFound when none matches; an unrecognized
attribute fails with InvalidRequestError (InvalidQuery); but empty
criteria are an unfiltered query, not an error: the sole row of a
one-row store is returned, an empty store gives NoResultFound, and two
or more rows give InvalidRequestError (MultipleResultsFound). -/
theorem find_user_by_contract (db : DBState) (k : String) (v : Value)
    (w : User) :
    (validAttrs.contains k = false →
      find_user_by db [(k, v)] = Except.error Err.invalidRequest) ∧
    (validAttrs.contains k = true →
      db.users.filter (matchesCriteria [(k, v)]) = [w] →
      find_user_by db [(k, v)] = Except.ok w) ∧
    (validAttrs.contains k = true →
      db.users.filter (matchesCriteria [(k, v)]) = [] →
      find_user_by db [(k, v)] = Except.error Err.noResultFound) ∧
    (db.users = [] → find_user_by db [] = Except.error Err.noResultFound) ∧
    (db.users = [w] → find_user_by db [] = Except.ok w) ∧
    (∀ (u1 u2 : User) (rest : List User), db.users = u1 :: u2 :: rest →
      find_user_by db [] = Except.error Err.invalidRequest) := by
  refine ⟨?_, ?_, ?_, ?_, ?_, ?_⟩
  · intro hk
    have hcond : ([(k, v)].all fun kv => validAttrs.contains kv.1) = false := by
      show (validAttrs.contains k && true) = false
      rw [hk]
      rfl
    unfold find_user_by
    rw [hcond]
    rfl
  · intro hk hfil
    refine find_user_by_of_filter_singleton ?_ hfil
    show (validAttrs.contains k && true) = true
    rw [hk]
    rfl
  · intro hk hfil
    refine find_user_by_of_filter_nil ?_ hfil
    show (validAttrs.contains k && true) = true
    rw [hk]
    rfl
  · intro h
    simp [find_user_by, matchesCriteria, h]
  · intro h
    simp [find_user_by, matchesCriteria, h]
  · intro u1 u2 rest h
    simp [find_user_by, matchesCriteria, h]

/-- C9 amended-claim witness: concrete one-user store queried by email,
by a bogus attribute, and with empty criteria. -/
theorem find_user_by_contract_witness :
    ((validAttrs.contains "email" = false →
      find_user_by
        { users := [{ id := 1, email := "a@x.com",
                      hashed_password := { salt := 0, pw := "p1" },
                      session_id := none, reset_token := none }], nextId := 2 }
        [("email", Value.vStr "a@x.com")] = Except.error Err.invalidRequest) ∧
    (validAttrs.contains "email" = true →
      ({ users := [{ id := 1, email := "a@x.com",
                     hashed_password := { salt := 0, pw := "p1" },
                     session_id := none, reset_token := none }],
         nextId := 2 } : DBState).users.filter
        (matchesCriteria [("email", Value.vStr "a@x.com")]) =
        [{ id := 1, email := "a@x.com",
           hashed_password := { salt := 0, pw := "p1" },
           session_id := none, reset_token := none }] →
      find_user_by
        { users := [{ id := 1, email := "a@x.com",
                      hashed_password := { salt := 0, pw := "p1" },
                      session_id := none, reset_token := none }], nextId := 2 }
        [("email", Value.vStr "a@x.com")] =
        Except.ok { id := 1, email := "a@x.com",
                    hashed_password := { salt := 0, pw := "p1" },
                    session_id := none, reset_token := none }) ∧
    (validAttrs.contains "email" = true →
      ({ users := [{ id := 1, email := "a@x.com",
                     hashed_password := { salt := 0, pw := "p1" },
                     session_id := none, reset_token := none }],
         nextId := 2 } : DBState).users.filter
        (matchesCriteria [("email", Value.vStr "a@x.com")]) = [] →
      find_user_by
        { users := [{ id := 1, email := "a@x.com",
                      hashed_password := { salt := 0, pw := "p1" },
                      session_id := none, reset_token := none }], nextId := 2 }
        [("email", Value.vStr "a@x.com")] = Except.error Err.noResultFound) ∧
    (({ users := [{ id := 1, email := "a@x.com",
                    hashed_password := { salt := 0, pw := "p1" },
                    session_id := none, reset_token := none }],
        nextId := 2 } : DBState).users = [] →
      find_user_by
        { users := [{ id := 1, email := "a@x.com",
                      hashed_password := { salt := 0, pw := "p1" },
                      session_id := none, reset_token := none }], nextId := 2 }
        [] = Except.error Err.noResultFound) ∧
    (({ users := [{ id := 1, email := "a@x.com",
                    hashed_password := { salt := 0, pw := "p1" },
                    session_id := none, reset_token := none }],
        nextId := 2 } : DBState).users =
        [{ id := 1, email := "a@x.com",
           hashed_password := { salt := 0, pw := "p1" },
           session_id := none, reset_token := none }] →
      find_user_by
        { users := [{ id := 1, email := "a@x.com",
                      hashed_password := { salt := 0, pw := "p1" },
                      session_id := none, reset_token := none }], nextId := 2 }
        [] = Except.ok { id := 1, email := "a@x.com",
                         hashed_password := { salt := 0, pw := "p1" },
                         session_id := none, reset_token := none }) ∧
    (∀ (u1 u2 : User) (rest : List User),
      ({ users := [{ id := 1, email := "a@x.com",
                     hashed_password := { salt := 0, pw := "p1" },
                     session_id := none, reset_token := none }],
         nextId := 2 } : DBState).users = u1 :: u2 :: rest →
      find_user_by
        { users := [{ id := 1, email := "a@x.com",
                      hashed_password := { salt := 0, pw := "p1" },
                      session_id := none, reset_token := none }], nextId := 2 }
        [] = Except.error Err.invalidRequest)) :=
  find_user_by_contract
    { users := [{ id := 1, email := "a@x.com",
                  hashed_password := { salt := 0, pw := "p1" },
                  session_id := none, reset_token := none }], nextId := 2 }
    "email" (Value.vStr "a@x.com")
    { id := 1, email := "a@x.com", hashed_password := { salt := 0, pw := "p1" },
      session_id := none, reset_token := none }

end AuthService
